import Mathlib

/-!
Verification of the `useFlyToTarget` motion-choreography hook.

The definitions in this file are a shallow embedding of the hook found in
`Sandbox-demo.tsx` (the anchor-aware variant of `useFlyToTarget`, whose
center-only twin lives in `unnamed/part_000`).  JavaScript numbers are
modelled as rationals wherever the code only adds, subtracts, multiplies
and divides by constants, and as reals where `Math.sqrt` is involved; the
single place where the source can produce `NaN` (dividing by a zero vector
length) is reified as `Option` with `none` standing for a NaN coordinate.

GSAP collaborator semantics used by the embedding (from the GSAP 3
timeline documentation):
* a tween's `delay` offsets its insertion point inside a timeline, so the
  resolved start time is `position + delay`;
* a string position starting with a greater-than sign means "the end of
  the most recently added animation plus the given offset".
-/

namespace FlyTo

/-- Screen-space bounding box, as returned by `getBoundingClientRect`. -/
structure Rect where
  left : ℚ
  top : ℚ
  width : ℚ
  height : ℚ
deriving DecidableEq

/-- The nine anchor tags of `PositionType` in the source. -/
inductive PositionType where
  | center
  | topLeft
  | topCenter
  | topRight
  | leftCenter
  | rightCenter
  | bottomLeft
  | bottomCenter
  | bottomRight
deriving DecidableEq

/-- A 2-D pixel offset / point `{x, y}`. -/
structure Pt where
  x : ℚ
  y : ℚ
deriving DecidableEq

/-- The resolved configuration (`DEFAULT_CONFIG` merged with the user's
partial config).  Callbacks are not data here; their invocations are
modelled as observable effects of the entry point. -/
structure FlyToTargetConfig where
  motionDuration : ℚ
  motionEase : String
  swoopAmount : ℚ
  targetPosition : PositionType
  targetPositionOffset : Pt
  scale : Bool
  grabScale : ℚ
  scaleStartDelay : ℚ
  scaleUpDuration : ℚ
  scaleUpEase : String
  scalePeak : ℚ
  scalePause : ℚ
  scaleDownDuration : ℚ
  scaleDownEase : String
  scaleTarget : ℚ
  enableShadow : Bool
  baseShadowBlur : ℚ
deriving DecidableEq

/-- `DEFAULT_CONFIG` of the source. -/
def DEFAULT_CONFIG : FlyToTargetConfig where
  motionDuration := 45/100
  motionEase := "power3.out"
  swoopAmount := -100
  targetPosition := PositionType.center
  targetPositionOffset := ⟨0, 0⟩
  scale := true
  grabScale := 12/10
  scaleStartDelay := 0
  scaleUpDuration := 2/10
  scaleUpEase := "power3.in"
  scalePeak := 25/10
  scalePause := 15/100
  scaleDownDuration := 1/10
  scaleDownEase := "none"
  scaleTarget := 1
  enableShadow := true
  baseShadowBlur := 4

/-- `getTargetPoint` of the source: resolve an anchor tag on a rect, then
add the configured pixel offset.  The `center` arm is also the `default`
arm of the source's `switch`. -/
def getTargetPoint (config : FlyToTargetConfig) (rect : Rect)
    (position : PositionType) : Pt :=
  let xLeft := rect.left
  let xCenter := rect.left + rect.width / 2
  let xRight := rect.left + rect.width
  let yTop := rect.top
  let yCenter := rect.top + rect.height / 2
  let yBottom := rect.top + rect.height
  let pos : Pt :=
    match position with
    | PositionType.topLeft => ⟨xLeft, yTop⟩
    | PositionType.topCenter => ⟨xCenter, yTop⟩
    | PositionType.topRight => ⟨xRight, yTop⟩
    | PositionType.leftCenter => ⟨xLeft, yCenter⟩
    | PositionType.rightCenter => ⟨xRight, yCenter⟩
    | PositionType.bottomLeft => ⟨xLeft, yBottom⟩
    | PositionType.bottomCenter => ⟨xCenter, yBottom⟩
    | PositionType.bottomRight => ⟨xRight, yBottom⟩
    | PositionType.center => ⟨xCenter, yCenter⟩
  ⟨pos.x + config.targetPositionOffset.x, pos.y + config.targetPositionOffset.y⟩

/-- `targetX` of the source: the anchor-resolved target point translated
into the source element's local transform space. -/
def localTargetX (config : FlyToTargetConfig) (sourceRect targetRect : Rect)
    (currentX : ℚ) : ℚ :=
  currentX + ((getTargetPoint config targetRect config.targetPosition).x
    - (sourceRect.left + sourceRect.width / 2))

/-- `targetY` of the source. -/
def localTargetY (config : FlyToTargetConfig) (sourceRect targetRect : Rect)
    (currentY : ℚ) : ℚ :=
  currentY + ((getTargetPoint config targetRect config.targetPosition).y
    - (sourceRect.top + sourceRect.height / 2))

/-! ## Lifecycle registry

`activeAnimationsRef.current` is an array of GSAP timelines.  Handles are
modelled as naturals; the registry records, besides the live array, every
`tl.kill()` invocation in order — the observable cancellation side
effects. -/

/-- The registry state: the live array plus the ordered log of `kill()`
invocations performed so far. -/
structure Registry where
  live : List ℕ
  kills : List ℕ
deriving DecidableEq

/-- `kill(timeline)` of the source: a null argument does nothing; any
non-null argument gets `timeline.kill()` invoked (whether or not it is in
the live array) and is then filtered out of the array. -/
def kill (timeline : Option ℕ) (r : Registry) : Registry :=
  match timeline with
  | none => r
  | some h => { live := r.live.filter fun tl => tl ≠ h, kills := r.kills ++ [h] }

/-- `killAll()` of the source: `forEach(tl => tl.kill())` over the live
array, then the array is replaced by `[]`. -/
def killAll (r : Registry) : Registry :=
  { live := [], kills := r.kills ++ r.live }

/-- Registry-affecting events of one hook instance's lifetime. -/
inductive Event where
  | trigger (h : ℕ)
  | cancelOne (h : Option ℕ)
  | cancelAllEv
  | complete (h : ℕ)
deriving DecidableEq

/-- One event step.  `flyToTarget` pushes the new timeline; the engine's
natural-completion report only runs the user's `onComplete` callback — the
source never touches `activeAnimationsRef` there. -/
def stepEvent (r : Registry) (e : Event) : Registry :=
  match e with
  | Event.trigger h => { r with live := r.live ++ [h] }
  | Event.cancelOne h => kill h r
  | Event.cancelAllEv => killAll r
  | Event.complete _ => r

/-- Run an event sequence from the initial (empty) registry. -/
def runEvents (es : List Event) : Registry :=
  es.foldl stepEvent ⟨[], []⟩

/-- Spec-side predicate: the handle's schedule has started. -/
def startedIn (es : List Event) (h : ℕ) : Prop :=
  Event.trigger h ∈ es

/-- Spec-side predicate: the engine reported the handle's natural
completion. -/
def completedIn (es : List Event) (h : ℕ) : Prop :=
  Event.complete h ∈ es

/-- Spec-side predicate: cancel was invoked on the handle. -/
def cancelledIn (es : List Event) (h : ℕ) : Prop :=
  h ∈ (runEvents es).kills

/-- Scanning events from most recent to oldest, a handle is alive when its
trigger is seen before any cancel of it and before any cancel-all;
completion reports are transparent. -/
def liveSpec : List Event → ℕ → Bool
  | [], _ => false
  | Event.trigger g :: rest, h => if g = h then true else liveSpec rest h
  | Event.cancelOne (some g) :: rest, h => if g = h then false else liveSpec rest h
  | Event.cancelOne none :: rest, h => liveSpec rest h
  | Event.cancelAllEv :: _, _ => false
  | Event.complete _ :: rest, h => liveSpec rest h

/-! ## Geometry solver

`Math.sqrt` forces the reals here.  The source has no zero-length guard:
when `start == end` both perpendicular components are `0`, `length` is
`0`, and `0 / 0` is `NaN` in JavaScript, so the control point's
coordinates are NaN.  The embedding reifies that one NaN source as
`Option`: `none` is the NaN control point. -/

noncomputable section

/-- Lines 572–586 of the source: midpoint, perpendicular of the
displacement, normalization by the perpendicular's length, and the
swoop offset.  `none` models the NaN coordinates produced by the
source's `perpX / 0` and `perpY / 0` (both numerators are `0` whenever
the length is, so the JavaScript values are `0 / 0 = NaN`). -/
def computeControlPoint (currentX currentY targetX targetY swoopAmount : ℝ) :
    Option (ℝ × ℝ) :=
  let midX := (currentX + targetX) / 2
  let midY := (currentY + targetY) / 2
  let dx := targetX - currentX
  let dy := targetY - currentY
  let perpX := -dy
  let perpY := dx
  let length := Real.sqrt (perpX * perpX + perpY * perpY)
  if length = 0 then
    none
  else
    let normalizedPerpX := perpX / length
    let normalizedPerpY := perpY / length
    some (midX + normalizedPerpX * swoopAmount, midY + normalizedPerpY * swoopAmount)

/-- Control-point formula as the specification words it (§4.1): mid plus
the unit perpendicular scaled by the swoop amount. -/
def specControlPoint (p q : ℝ × ℝ) (swoopAmount : ℝ) : ℝ × ℝ :=
  let midX := (p.1 + q.1) / 2
  let midY := (p.2 + q.2) / 2
  let perpX := -(q.2 - p.2)
  let perpY := q.1 - p.1
  let length := Real.sqrt (perpX * perpX + perpY * perpY)
  (midX + perpX / length * swoopAmount, midY + perpY / length * swoopAmount)

/-- Euclidean distance between two points of the plane. -/
def ptDist (a b : ℝ × ℝ) : ℝ :=
  Real.sqrt ((a.1 - b.1) ^ 2 + (a.2 - b.2) ^ 2)

/-! ## Phase composer: the GSAP timeline model

A timeline child records the tween's variables and its resolved absolute
start time.  Position resolution follows the GSAP 3 rules quoted at the
top of the file. -/

/-- A `boxShadow` template-string value `{offX}px {offY}px {blur}px
rgba(0,0,0,{alpha})`, kept as its numeric fields. -/
structure ShadowVal where
  offX : ℚ
  offY : ℚ
  blur : ℚ
  alpha : ℚ
deriving DecidableEq

/-- The motion part of a tween's vars: either a three-point
`motionPath` (with the source's `curviness: 2, resolution: 6`) or the
direct `x`/`y` pair.  The control point is the only coordinate that can
be NaN (`none`). -/
inductive MotionTween where
  | motionPath (p0 : ℚ × ℚ) (control : Option (ℝ × ℝ)) (p2 : ℚ × ℚ)
      (curviness resolution : ℚ)
  | direct (x y : ℚ)

/-- The fields of `gsap.TweenVars` this hook ever sets. -/
structure TweenVars where
  duration : ℚ := 0
  delay : ℚ := 0
  ease : String := ""
  scale : Option ℚ := none
  boxShadow : Option ShadowVal := none
  motion : Option MotionTween := none

/-- The from-vars of a `fromTo` call (only `scale` is ever used). -/
structure FromVars where
  scale : Option ℚ := none

/-- A GSAP position parameter as used by this hook: an absolute number,
or a string made of a greater-than sign followed by a number — the end of
the most recently added animation plus that offset. -/
inductive TLPosition where
  | abs (t : ℚ)
  | afterPrev (offset : ℚ)

/-- One child of a timeline with its resolved absolute start time
(position plus the tween's own delay, per GSAP). -/
structure Child where
  fromVars : Option FromVars
  vars : TweenVars
  startTime : ℚ

/-- A timeline is its ordered list of children. -/
structure Timeline where
  children : List Child

/-- GSAP position resolution.  `afterPrev` is measured from the end
(start time plus duration) of the most recently added child; on an empty
timeline that end is `0`. -/
def Timeline.resolvePosition (tl : Timeline) (p : TLPosition) : ℚ :=
  match p with
  | TLPosition.abs t => t
  | TLPosition.afterPrev ofs =>
    match tl.children.getLast? with
    | none => ofs
    | some c => c.startTime + c.vars.duration + ofs

/-- `tl.to` / `tl.fromTo`: append a child whose start time is the
resolved position plus the tween's delay. -/
def Timeline.add (tl : Timeline) (f : Option FromVars) (v : TweenVars)
    (p : TLPosition) : Timeline :=
  { children := tl.children ++ [Child.mk f v (tl.resolvePosition p + v.delay)] }

/-- A `gsap.set` invocation: an immediate state change applied before
playback, not a timed phase. -/
inductive SetCall where
  | setShadow (s : ShadowVal)
  | setScale (v : ℚ)
deriving DecidableEq

/-- What one `flyToTarget` invocation hands over: the composed timeline
and the immediate `gsap.set` state changes, in order. -/
structure BuildOut where
  timeline : Timeline
  sets : List SetCall

/-- Lines 550–654 of the source, after the null guard: resolve the
target, build the motion tween (curved when `swoopAmount !== 0`, direct
otherwise), then the optional scale-up / scale-down pair with the derived
shadow values, or the bare `gsap.set(scale)` when scale is disabled. -/
def flyCore (config : FlyToTargetConfig) (sourceRect targetRect : Rect)
    (currentX currentY : ℚ) : BuildOut :=
  let targetX := localTargetX config sourceRect targetRect currentX
  let targetY := localTargetY config sourceRect targetRect currentY
  let motionConfig : TweenVars :=
    if config.swoopAmount ≠ 0 then
      { duration := config.motionDuration, ease := config.motionEase,
        motion := some (MotionTween.motionPath (currentX, currentY)
          (computeControlPoint currentX currentY targetX targetY config.swoopAmount)
          (targetX, targetY) 2 6) }
    else
      { duration := config.motionDuration, ease := config.motionEase,
        motion := some (MotionTween.direct targetX targetY) }
  let tl := Timeline.add ⟨[]⟩ none motionConfig (TLPosition.abs 0)
  if config.scale then
    let scaleConfig : TweenVars :=
      { scale := some config.scalePeak, delay := config.scaleStartDelay,
        duration := config.scaleUpDuration, ease := config.scaleUpEase,
        boxShadow := if config.enableShadow then
            some ⟨0, 2, config.baseShadowBlur * config.scalePeak * (5/10), 6/10⟩
          else none }
    let sets := if config.enableShadow then
        [SetCall.setShadow ⟨0, 2, config.baseShadowBlur * config.grabScale, 3/10⟩]
      else []
    let tl := tl.add (some ⟨some config.grabScale⟩) scaleConfig (TLPosition.abs 0)
    let scaleDownConfig : TweenVars :=
      { delay := config.scalePause, scale := some config.scaleTarget,
        duration := config.scaleDownDuration, ease := config.scaleDownEase,
        boxShadow := if config.enableShadow then some ⟨0, 0, 0, 0⟩ else none }
    let tl := tl.add none scaleDownConfig
      (TLPosition.afterPrev (config.scaleStartDelay + config.scaleUpDuration))
    { timeline := tl, sets := sets }
  else
    { timeline := tl, sets := [SetCall.setScale config.grabScale] }

/-- An element reference: its bounding rect and its current `x`/`y`
transform as read by `gsap.getProperty`. -/
structure Elem where
  rect : Rect
  x : ℚ
  y : ℚ

/-- The observable outcome of one `flyToTarget` call. -/
structure FlyOutcome where
  result : Option ℕ
  warned : Bool
  onStartCalls : ℕ
  built : Option BuildOut
  onCompleteAttached : Bool
  registryAfter : List ℕ

/-- The entry point, lines 480–659 of the source: a null source or target
produces a `console.warn` and `null` with nothing else done; otherwise
`onStart` is called once, the schedule is built, `onComplete` is wired,
and the fresh timeline handle is pushed onto the registry and returned. -/
def flyToTarget (source target : Option Elem) (config : FlyToTargetConfig)
    (registry : List ℕ) (freshHandle : ℕ) : FlyOutcome :=
  match source, target with
  | some s, some t =>
    { result := some freshHandle, warned := false, onStartCalls := 1,
      built := some (flyCore config s.rect t.rect s.x s.y),
      onCompleteAttached := true,
      registryAfter := registry ++ [freshHandle] }
  | _, _ =>
    { result := none, warned := true, onStartCalls := 0, built := none,
      onCompleteAttached := false, registryAfter := registry }

/-- The first setShadow blur among the immediate state changes. -/
def initialShadowBlur (b : BuildOut) : Option ℚ :=
  (b.sets.filterMap fun s =>
    match s with
    | SetCall.setShadow v => some v.blur
    | _ => none).head?

/-- Per timeline child, the blur of its `boxShadow` target if any. -/
def shadowBlurTargets (b : BuildOut) : List (Option ℚ) :=
  b.timeline.children.map fun c => c.vars.boxShadow.map ShadowVal.blur

/-- Whether any shadow value occurs anywhere in the outcome. -/
def shadowPresent (b : BuildOut) : Bool :=
  (initialShadowBlur b).isSome || b.timeline.children.any fun c => c.vars.boxShadow.isSome

end

/-- The default config with `swoopAmount` overridden to `0`
(straight-line motion). -/
def cfgStraight : FlyToTargetConfig :=
  { DEFAULT_CONFIG with swoopAmount := 0 }

/-! ## Claim theorems -/

theorem runEvents_append (es : List Event) (e : Event) :
    runEvents (es ++ [e]) = stepEvent (runEvents es) e := by
  simp [runEvents, List.foldl_append]

/-- Claim C2, counterexample: after the event sequence "trigger handle 0,
engine reports natural completion of 0", handle 0 is still in the live
array even though it has completed — the source's `onComplete` only runs
the user callback and never touches `activeAnimationsRef`, so the claimed
invariant (live iff started and neither completed nor cancelled) is false
on the code. -/
theorem flyC2_counterexample :
    ¬ ((0 ∈ (runEvents [Event.trigger 0, Event.complete 0]).live) ↔
      (startedIn [Event.trigger 0, Event.complete 0] 0 ∧
        ¬ completedIn [Event.trigger 0, Event.complete 0] 0 ∧
        ¬ cancelledIn [Event.trigger 0, Event.complete 0] 0)) := by
  simp [runEvents, stepEvent, startedIn, completedIn, cancelledIn, kill, killAll]

/-- Claim C2 (amended): for every event sequence, a handle is in the live
set iff, scanning from the most recent event backwards, its trigger is
met before any cancelOne of it and before any cancelAll; engine-reported
natural completions never change the live set, so a completed handle
stays registered until some cancel operation removes it. -/
theorem flyC2_live_characterization (es : List Event) (h : ℕ) :
    h ∈ (runEvents es).live ↔ liveSpec es.reverse h = true := by
  induction es using List.reverseRecOn with
  | nil => simp [runEvents, liveSpec]
  | append_singleton xs x ih =>
    rw [runEvents_append]
    simp only [List.reverse_append, List.reverse_cons, List.reverse_nil,
      List.nil_append, List.singleton_append]
    cases x with
    | trigger g =>
      by_cases hg : g = h
      · subst hg
        simp [stepEvent, liveSpec]
      · simp [stepEvent, liveSpec, hg, ih, Ne.symm hg]
    | cancelOne hh =>
      cases hh with
      | none => simpa [stepEvent, liveSpec, kill] using ih
      | some g =>
        by_cases hg : g = h
        · subst hg
          simp [stepEvent, liveSpec, kill, List.mem_filter]
        · simp [stepEvent, liveSpec, kill, List.mem_filter, hg, ih, Ne.symm hg]
    | cancelAllEv =>
      simp [stepEvent, liveSpec, killAll]
    | complete g =>
      simpa [stepEvent, liveSpec] using ih

/-- Claim C7: when the source or the target element reference is null the
entry point returns null, warns non-fatally, fires neither callback,
builds no schedule, and leaves the registry untouched. -/
theorem flyC7_nullInput (source target : Option Elem) (config : FlyToTargetConfig)
    (registry : List ℕ) (fresh : ℕ) (hnull : source = none ∨ target = none) :
    flyToTarget source target config registry fresh =
      { result := none, warned := true, onStartCalls := 0, built := none,
        onCompleteAttached := false, registryAfter := registry } := by
  rcases hnull with hb | hb <;> subst hb
  · cases target <;> rfl
  · cases source <;> rfl

/-- Witness for claim C7 at a concrete null source. -/
theorem flyC7_nullInput_witness :
    flyToTarget none (some (Elem.mk ⟨0, 0, 10, 10⟩ 0 0)) DEFAULT_CONFIG [3] 7 =
      { result := none, warned := true, onStartCalls := 0, built := none,
        onCompleteAttached := false, registryAfter := [3] } :=
  flyC7_nullInput none (some (Elem.mk ⟨0, 0, 10, 10⟩ 0 0)) DEFAULT_CONFIG [3] 7
    (Or.inl rfl)

/-- Claim C8, counterexample: cancelling a handle that was never
registered is not a no-op — the source's `kill` invokes `timeline.kill()`
on any non-null argument before filtering, so the unknown handle 5
receives a cancel invocation even though the live set is empty. -/
theorem flyC8_counterexample :
    kill (some 5) ⟨[], []⟩ ≠ (⟨[], []⟩ : Registry) ∧
    (kill (some 5) ⟨[], []⟩).kills = [5] := by
  decide

/-- Claim C8 (amended): `kill` removes the given handle from the live set
if present, leaves other handles alone, and never errors; but the cancel
invocation happens on every non-null argument, registered or not (so a
repeated `kill` performs a duplicate, harmless, cancel call); `kill(null)`
is a complete no-op. -/
theorem flyC8_kill_behavior (r : Registry) (h g : ℕ) :
    (g ∈ (kill (some h) r).live ↔ g ∈ r.live ∧ g ≠ h) ∧
    (kill (some h) r).kills = r.kills ++ [h] ∧
    kill none r = r := by
  refine ⟨?_, rfl, rfl⟩
  simp [kill, List.mem_filter]

/-- Claim C9, counterexample: after `killAll` on a registry holding
handle 7, a subsequent `kill(7)` is not a no-op — it invokes
`timeline.kill()` on 7 a second time, so the kill log becomes `[7, 7]`. -/
theorem flyC9_counterexample :
    kill (some 7) (killAll ⟨[7], []⟩) ≠ killAll (⟨[7], []⟩ : Registry) ∧
    (kill (some 7) (killAll ⟨[7], []⟩)).kills = [7, 7] := by
  decide

/-- Claim C9 (amended): `killAll` invokes cancel exactly once on every
live handle and empties the live set; on an empty set it is a no-op, and
a second `killAll` is a no-op; a later `kill` on one of the cancelled
handles leaves the (empty) live set unchanged and raises no error, but it
does invoke cancel on that handle again. -/
theorem flyC9_killAll_behavior (r : Registry) (h : ℕ) :
    (killAll r).live = [] ∧
    (killAll r).kills = r.kills ++ r.live ∧
    killAll (killAll r) = killAll r ∧
    (kill (some h) (killAll r)).live = [] ∧
    (kill (some h) (killAll r)).kills = r.kills ++ r.live ++ [h] := by
  refine ⟨rfl, rfl, ?_, rfl, ?_⟩ <;> simp [killAll, kill]

/-- The degenerate geometry of the source: when start and end coincide the
perpendicular is the zero vector, its length is `0`, and the divisions are
`0 / 0` — the control point is NaN (`none`), not a fallback. -/
theorem computeControlPoint_self (x y s : ℝ) :
    computeControlPoint x y x y s = none := by
  simp [computeControlPoint]

/-- Claim C1 (code evaluated at the failing input): with the default
config (`swoopAmount = -100`) and a source whose center coincides with the
target anchor point, the composed motion phase is a curved `motionPath`
whose control point is NaN (`none`) — the division-by-zero result reaches
the schedule; no null-guard or direct fallback exists in the code. -/
theorem flyC1_nanControlPoint :
    ((flyCore DEFAULT_CONFIG ⟨0, 0, 10, 10⟩ ⟨0, 0, 10, 10⟩ 0 0).timeline.children.map
      fun c => c.vars.motion).head? =
    some (some (MotionTween.motionPath (0, 0) none (0, 0) 2 6)) := by
  norm_num [flyCore, Timeline.add, Timeline.resolvePosition, DEFAULT_CONFIG,
    localTargetX, localTargetY, getTargetPoint, computeControlPoint_self]

/-- Claim C5: for distinct start and end and nonzero swoop the computed
control point is exactly the specification's `mid + normalized *
swoopAmount` with `perp = (-(end.y - start.y), end.x - start.x)` and
`normalized = perp / length(perp)`. -/
theorem flyC5_controlFormula (cx cy tx ty s : ℝ)
    (hne : (cx, cy) ≠ (tx, ty)) (_hs : s ≠ 0) :
    computeControlPoint cx cy tx ty s = some (specControlPoint (cx, cy) (tx, ty) s) := by
  have hd : tx - cx ≠ 0 ∨ ty - cy ≠ 0 := by
    by_contra hc
    push_neg at hc
    exact hne (by rw [Prod.mk.injEq]; constructor <;> [linarith [hc.1]; linarith [hc.2]])
  have hpos : 0 < -(ty - cy) * -(ty - cy) + (tx - cx) * (tx - cx) := by
    rcases hd with h | h
    · nlinarith [mul_self_pos.mpr h, mul_self_nonneg (ty - cy)]
    · nlinarith [mul_self_pos.mpr h, mul_self_nonneg (tx - cx)]
  have hlen : Real.sqrt (-(ty - cy) * -(ty - cy) + (tx - cx) * (tx - cx)) ≠ 0 :=
    ne_of_gt (Real.sqrt_pos.mpr hpos)
  simp only [computeControlPoint, specControlPoint]
  rw [if_neg hlen]

/-- Witness for claim C5: the spec's worked example — start `(100,100)`,
end `(300,100)`, swoop `-50` — yields control point exactly `(200, 50)`. -/
theorem flyC5_controlFormula_witness :
    computeControlPoint 100 100 300 100 (-50) = some (200, 50) := by
  have h40 : Real.sqrt 40000 = 200 := by
    rw [show (40000 : ℝ) = 200 ^ 2 by norm_num]
    exact Real.sqrt_sq (by norm_num)
  have hspec : specControlPoint (100, 100) (300, 100) (-50) = ((200 : ℝ), (50 : ℝ)) := by
    simp only [specControlPoint]
    norm_num [h40]
  rw [flyC5_controlFormula 100 100 300 100 (-50)
    (by norm_num [Prod.mk.injEq]) (by norm_num), hspec]

/-- Claim C10: for distinct start and end and any swoop amount, the
computed control point lies on the perpendicular bisector of the segment
(it is equidistant from start and end) and its distance from the midpoint
is exactly `|swoopAmount|`. -/
theorem flyC10_controlEquidistant (cx cy tx ty s : ℝ)
    (hne : (cx, cy) ≠ (tx, ty)) :
    ∃ c : ℝ × ℝ, computeControlPoint cx cy tx ty s = some c ∧
      ptDist c (cx, cy) = ptDist c (tx, ty) ∧
      ptDist c ((cx + tx) / 2, (cy + ty) / 2) = |s| := by
  have hd : tx - cx ≠ 0 ∨ ty - cy ≠ 0 := by
    by_contra hc
    push_neg at hc
    exact hne (by rw [Prod.mk.injEq]; constructor <;> [linarith [hc.1]; linarith [hc.2]])
  have hpos : 0 < -(ty - cy) * -(ty - cy) + (tx - cx) * (tx - cx) := by
    rcases hd with h | h
    · nlinarith [mul_self_pos.mpr h, mul_self_nonneg (ty - cy)]
    · nlinarith [mul_self_pos.mpr h, mul_self_nonneg (tx - cx)]
  set L := Real.sqrt (-(ty - cy) * -(ty - cy) + (tx - cx) * (tx - cx)) with hLdef
  have hL : 0 < L := Real.sqrt_pos.mpr hpos
  have hLne : L ≠ 0 := ne_of_gt hL
  have hL2 : L * L = -(ty - cy) * -(ty - cy) + (tx - cx) * (tx - cx) :=
    Real.mul_self_sqrt (le_of_lt hpos)
  refine ⟨((cx + tx) / 2 + -(ty - cy) / L * s, (cy + ty) / 2 + (tx - cx) / L * s),
    ?_, ?_, ?_⟩
  · simp only [computeControlPoint]
    rw [if_neg hLne]
  · simp only [ptDist]
    congr 1
    field_simp
    ring
  · simp only [ptDist]
    have hrad : ((cx + tx) / 2 + -(ty - cy) / L * s - (cx + tx) / 2) ^ 2 +
        ((cy + ty) / 2 + (tx - cx) / L * s - (cy + ty) / 2) ^ 2 = s ^ 2 := by
      have step : ((cx + tx) / 2 + -(ty - cy) / L * s - (cx + tx) / 2) ^ 2 +
          ((cy + ty) / 2 + (tx - cx) / L * s - (cy + ty) / 2) ^ 2 =
          (-(ty - cy) * -(ty - cy) + (tx - cx) * (tx - cx)) * s ^ 2 / (L * L) := by
        field_simp
        ring
      rw [step, ← hL2]
      field_simp
    rw [hrad, Real.sqrt_sq_eq_abs]

/-- Witness for claim C10 at start `(0,0)`, end `(2,0)`, swoop `3`. -/
theorem flyC10_controlEquidistant_witness :
    ∃ c : ℝ × ℝ, computeControlPoint 0 0 2 0 3 = some c ∧
      ptDist c (0, 0) = ptDist c (2, 0) ∧
      ptDist c ((0 + 2) / 2, (0 + 0) / 2) = |(3 : ℝ)| :=
  flyC10_controlEquidistant 0 0 2 0 3 (by norm_num [Prod.ext_iff])

/-- Claim C3 (code evaluated at the failing input): with the default
config the composed start times are `[0, 0, 11/20]` — the scale-down
phase starts at `0.55`, namely the end of the scale-up tween
(`scaleStartDelay + scaleUpDuration = 0.2`, since the position string is
measured from that end) plus the `>`-offset `scaleStartDelay +
scaleUpDuration = 0.2` plus the tween's own delay `scalePause = 0.15`;
the claimed value `scaleStartDelay + scaleUpDuration + scalePause = 0.35`
(also the README's choreography, which pauses exactly `scalePause` at the
peak) differs. -/
theorem flyC3_scaleDownStart :
    ((flyCore DEFAULT_CONFIG ⟨0, 0, 10, 10⟩ ⟨100, 100, 20, 20⟩ 0 0).timeline.children.map
      Child.startTime) = [0, 0, 11/20] ∧
    (11/20 : ℚ) ≠ DEFAULT_CONFIG.scaleStartDelay + DEFAULT_CONFIG.scaleUpDuration
      + DEFAULT_CONFIG.scalePause := by
  constructor
  · norm_num [flyCore, Timeline.add, Timeline.resolvePosition, DEFAULT_CONFIG]
  · norm_num [DEFAULT_CONFIG]

/-- The scale-down start time is the same doubled expression for every
config with scale enabled, and is independent of `motionDuration`. -/
theorem scaleDown_startTime_general (config : FlyToTargetConfig)
    (sr tr : Rect) (cx cy : ℚ) (hsc : config.scale = true) :
    ((flyCore config sr tr cx cy).timeline.children.map Child.startTime) =
      [0, config.scaleStartDelay,
       2 * (config.scaleStartDelay + config.scaleUpDuration) + config.scalePause] := by
  simp [flyCore, Timeline.add, Timeline.resolvePosition, hsc, apply_ite TweenVars.delay]
  ring

/-- Claim C4: the shadow values exist exactly when `scale` and
`enableShadow` are both enabled, and then the pre-playback blur is
`baseShadowBlur * grabScale`, the blur paired with scale-up is
`baseShadowBlur * scalePeak * 0.5`, and the blur paired with scale-down
is `0` whatever `scaleTarget` is. -/
theorem flyC4_shadowTrack (config : FlyToTargetConfig) (sr tr : Rect) (cx cy : ℚ) :
    shadowPresent (flyCore config sr tr cx cy) = (config.scale && config.enableShadow) ∧
    (config.scale = true → config.enableShadow = true →
      initialShadowBlur (flyCore config sr tr cx cy)
        = some (config.baseShadowBlur * config.grabScale) ∧
      shadowBlurTargets (flyCore config sr tr cx cy)
        = [none, some (config.baseShadowBlur * config.scalePeak * (5/10)), some 0]) := by
  cases hsc : config.scale <;> cases hen : config.enableShadow <;>
    simp [flyCore, Timeline.add, Timeline.resolvePosition, shadowPresent,
      initialShadowBlur, shadowBlurTargets, hsc, hen,
      apply_ite TweenVars.boxShadow, apply_ite TweenVars.delay]

/-- Witness for claim C4 at the defaults `baseShadowBlur = 4`,
`grabScale = 1.2`, `scalePeak = 2.5`: initial blur `4.8`, scale-up blur
`5`, scale-down blur `0`. -/
theorem flyC4_shadowTrack_witness :
    initialShadowBlur (flyCore DEFAULT_CONFIG ⟨0, 0, 10, 10⟩ ⟨100, 100, 20, 20⟩ 0 0)
      = some (24/5) ∧
    shadowBlurTargets (flyCore DEFAULT_CONFIG ⟨0, 0, 10, 10⟩ ⟨100, 100, 20, 20⟩ 0 0)
      = [none, some 5, some 0] := by
  have h := (flyC4_shadowTrack DEFAULT_CONFIG ⟨0, 0, 10, 10⟩ ⟨100, 100, 20, 20⟩ 0 0).2 rfl rfl
  refine ⟨h.1.trans ?_, h.2.trans ?_⟩ <;> norm_num [DEFAULT_CONFIG]

/-- Claim C6: with `swoopAmount = 0` and distinct start and end, the
motion phase is the direct two-point tween (no curve, no control-point
computation) running from `t = 0` for `motionDuration`, and its end value
is exactly the anchor-resolved target translated into the element's local
space. -/
theorem flyC6_directMotion (config : FlyToTargetConfig) (sr tr : Rect) (cx cy : ℚ)
    (hsw : config.swoopAmount = 0)
    (_hne : (cx, cy) ≠ (localTargetX config sr tr cx, localTargetY config sr tr cy)) :
    ((flyCore config sr tr cx cy).timeline.children.map
      fun c => (c.startTime, c.vars.duration, c.vars.motion)).head? =
    some (0, config.motionDuration,
      some (MotionTween.direct (localTargetX config sr tr cx)
        (localTargetY config sr tr cy))) := by
  cases hsc : config.scale <;>
    simp [flyCore, Timeline.add, Timeline.resolvePosition, hsw, hsc]

/-- Witness for claim C6 with the default config at `swoopAmount = 0`. -/
theorem flyC6_directMotion_witness :
    ((flyCore cfgStraight ⟨0, 0, 10, 10⟩ ⟨100, 100, 20, 20⟩ 0 0).timeline.children.map
      fun c => (c.startTime, c.vars.duration, c.vars.motion)).head? =
    some (0, cfgStraight.motionDuration,
      some (MotionTween.direct
        (localTargetX cfgStraight ⟨0, 0, 10, 10⟩ ⟨100, 100, 20, 20⟩ 0)
        (localTargetY cfgStraight ⟨0, 0, 10, 10⟩ ⟨100, 100, 20, 20⟩ 0))) :=
  flyC6_directMotion cfgStraight ⟨0, 0, 10, 10⟩ ⟨100, 100, 20, 20⟩ 0 0 rfl
    (by norm_num [localTargetX, localTargetY, getTargetPoint, cfgStraight,
      DEFAULT_CONFIG, Prod.ext_iff])

end FlyTo
